import Mathlib

/-!
Verification of the SmartSales-AI anomaly detection engine
(`src/ai/anomaly_detector.py`) against its specification.

The engine is embedded shallowly over ℚ: Python floats are modelled as
exact rationals, numpy reductions (`np.mean`, `np.std`, `np.percentile`,
`np.median`) as rational-valued list functions.  `np.std` is the square
root of the population variance and is irrational in general, so the
detection functions take the standard deviation `std` as an explicit
parameter; theorems constrain it by `0 ≤ std ∧ std ^ 2 = popVariance data`
(the defining property of the population standard deviation).  The
`timestamp` field of a report (wall-clock capture time, an effect) is
outside the pure model and is omitted from the embedded record.
-/

namespace SmartSales

/-- Structured anomaly detection result (`AnomalyReport` dataclass),
minus the effectful `timestamp` field. -/
structure AnomalyReport where
  anomaly_type : String
  severity : String
  metric : String
  actual_value : ℚ
  expected_range : ℚ × ℚ
  deviation_pct : ℚ
  recommendation : String
deriving Repr, DecidableEq

/-- Detector state: the two (sensitivity-scaled) thresholds fixed at
construction and the mutable per-metric history store.  The Python
`dict` is modelled as an association list consulted by first match;
`add_historical_data` prepends, so the most recent registration wins,
matching dict assignment. -/
structure AnomalyDetector where
  z_threshold : ℚ
  iqr_multiplier : ℚ
  historical_data : List (String × List ℚ)
deriving Repr, DecidableEq

/-- `sensitivity_map.get(sensitivity, 1.0)` from `__init__`:
low ↦ 0.7, medium ↦ 1.0, high ↦ 1.3, anything else ↦ 1.0. -/
def sensitivityMultiplier (sensitivity : String) : ℚ :=
  if sensitivity = "low" then 7/10
  else if sensitivity = "medium" then 1
  else if sensitivity = "high" then 13/10
  else 1

/-- `AnomalyDetector.__init__`: scales both base thresholds by the
sensitivity multiplier once, at construction, and starts with an empty
history store.  Python defaults are `z_threshold=3.0`,
`iqr_multiplier=1.5`, `sensitivity="medium"`. -/
def mkAnomalyDetector (z_threshold iqr_multiplier : ℚ) (sensitivity : String) :
    AnomalyDetector :=
  let multiplier := sensitivityMultiplier sensitivity
  { z_threshold := z_threshold * multiplier
    iqr_multiplier := iqr_multiplier * multiplier
    historical_data := [] }

/-- `add_historical_data`: stores/overwrites the series for `metric`. -/
def add_historical_data (d : AnomalyDetector) (metric : String)
    (values : List ℚ) : AnomalyDetector :=
  { d with historical_data := (metric, values) :: d.historical_data }

/-- `self.historical_data.get(metric, [])`. -/
def getHistorical (d : AnomalyDetector) (metric : String) : List ℚ :=
  (d.historical_data.lookup metric).getD []

/-- `data = historical or self.historical_data.get(metric, [])`.
Python truthiness: both `None` and the empty list fall back to the
registered series; only a non-empty explicit `historical` is used as-is. -/
def resolveHistory (d : AnomalyDetector) (metric : String)
    (historical : Option (List ℚ)) : List ℚ :=
  match historical with
  | none => getHistorical d metric
  | some h => if h = [] then getHistorical d metric else h

/-- `np.mean`: arithmetic mean (population). -/
def listMean (data : List ℚ) : ℚ := data.sum / data.length

/-- Population variance, so that `np.std data = Real.sqrt (popVariance data)`. -/
def popVariance (data : List ℚ) : ℚ :=
  (data.map (fun x => (x - listMean data) ^ 2)).sum / data.length

/-- `_calculate_severity`: maps a detection score to a severity level. -/
def _calculate_severity (score : ℚ) : String :=
  if score > 5 then "critical"
  else if score > 4 then "high"
  else if score > 3 then "medium"
  else "low"

/-- Renders a nonnegative rational with one decimal digit, for the
`{abs_pct:.1f}` substitutions in `_generate_recommendation` (Python's
round-half-even at exact ties is approximated by round-half-up; no claim
depends on tie behaviour). -/
def formatFixed1 (q : ℚ) : String :=
  let n : ℤ := ⌊q * 10 + 1/2⌋
  toString (n / 10) ++ "." ++ toString (n % 10)

/-- `_generate_recommendation`: fixed table of metric-specific templates
with a generic fallback, substituting direction and absolute percentage. -/
def _generate_recommendation (metric : String) (deviation_pct : ℚ) : String :=
  let direction := if deviation_pct > 0 then "increase" else "decrease"
  let abs_pct := |deviation_pct|
  let pct := formatFixed1 abs_pct
  if metric = "daily_revenue" then
    s!"Revenue {direction}d by {pct}%. Review pricing strategy and promotions."
  else if metric = "transaction_count" then
    s!"Transaction volume {direction}d by {pct}%. Check store traffic and marketing campaigns."
  else if metric = "avg_order_value" then
    s!"Average order value {direction}d by {pct}%. Analyze product mix and upselling effectiveness."
  else if metric = "category_sales" then
    s!"Category sales {direction}d by {pct}%. Review inventory levels and merchandising."
  else
    s!"Unusual {direction} of {pct}% detected. Investigate root cause."

/-- `detect_zscore_anomaly`.  `std` is the population standard deviation
of the resolved series, passed as a parameter (see the file header);
theorems pin it down by `0 ≤ std ∧ std ^ 2 = popVariance data`. -/
def detect_zscore_anomaly (d : AnomalyDetector) (value : ℚ) (metric : String)
    (historical : Option (List ℚ)) (std : ℚ) : Option AnomalyReport :=
  let data := resolveHistory d metric historical
  if data.length < 10 then none
  else
    let mean := listMean data
    if std = 0 then none
    else
      let z_score := |value - mean| / std
      if z_score > d.z_threshold then
        let deviation_pct := (value - mean) / mean * 100
        some { anomaly_type := "Z-Score Outlier"
               severity := _calculate_severity z_score
               metric := metric
               actual_value := value
               expected_range := (mean - 2 * std, mean + 2 * std)
               deviation_pct := deviation_pct
               recommendation := _generate_recommendation metric deviation_pct }
      else none

/-- `np.percentile(data, q)` with the default linear interpolation:
sort ascending, take position `q / 100 * (n - 1)`, and interpolate
linearly between the two adjacent ranked observations. -/
def percentile (data : List ℚ) (q : ℚ) : ℚ :=
  let s := List.insertionSort (· ≤ ·) data
  let pos : ℚ := q / 100 * ((data.length : ℚ) - 1)
  let i : ℕ := (⌊pos⌋).toNat
  let a := s.getD i 0
  let b := s.getD (i + 1) a
  a + (pos - (i : ℚ)) * (b - a)

/-- `np.median = np.percentile(·, 50)` (average of the middle two ranked
observations for even length). -/
def listMedian (data : List ℚ) : ℚ := percentile data 50

/-- `detect_iqr_anomaly`. -/
def detect_iqr_anomaly (d : AnomalyDetector) (value : ℚ) (metric : String)
    (historical : Option (List ℚ)) : Option AnomalyReport :=
  let data := resolveHistory d metric historical
  if data.length < 10 then none
  else
    let q1 := percentile data 25
    let q3 := percentile data 75
    let iqr := q3 - q1
    let lower_bound := q1 - d.iqr_multiplier * iqr
    let upper_bound := q3 + d.iqr_multiplier * iqr
    if value < lower_bound ∨ value > upper_bound then
      let median := listMedian data
      let deviation_pct := (value - median) / median * 100
      let distance := min |value - lower_bound| |value - upper_bound|
      some { anomaly_type := "IQR Outlier"
             severity := _calculate_severity (if iqr > 0 then distance / iqr else 0)
             metric := metric
             actual_value := value
             expected_range := (lower_bound, upper_bound)
             deviation_pct := deviation_pct
             recommendation := _generate_recommendation metric deviation_pct }
    else none

/-- `detect_all`: one pass over the current values in order; per metric,
z-score first, and the IQR check only if z-score yields no verdict.
`stdOf` supplies the standard-deviation parameter of the z-score method
for each metric (see `detect_zscore_anomaly`). -/
def detect_all (d : AnomalyDetector) (stdOf : String → ℚ) :
    List (String × ℚ) → List AnomalyReport
  | [] => []
  | (metric, value) :: rest =>
    match detect_zscore_anomaly d value metric none (stdOf metric) with
    | some z_anomaly => z_anomaly :: detect_all d stdOf rest
    | none =>
      match detect_iqr_anomaly d value metric none with
      | some iqr_anomaly => iqr_anomaly :: detect_all d stdOf rest
      | none => detect_all d stdOf rest

/-- The reports `detect_all` contributes for one `(metric, value)` entry:
the z-score report if there is one, else the IQR report if there is one,
else nothing. -/
def reportsForMetric (d : AnomalyDetector) (stdOf : String → ℚ)
    (p : String × ℚ) : List AnomalyReport :=
  match detect_zscore_anomaly d p.2 p.1 none (stdOf p.1) with
  | some z_anomaly => [z_anomaly]
  | none => (detect_iqr_anomaly d p.2 p.1 none).toList

/-- Rank of a severity level in the order low < medium < high < critical. -/
def severityRank (severity : String) : ℕ :=
  if severity = "low" then 0
  else if severity = "medium" then 1
  else if severity = "high" then 2
  else 3

/-! ## General lemmas about the embedded operations -/

theorem resolveHistory_some_of_ne_nil (d : AnomalyDetector) (metric : String)
    (h : List ℚ) (hne : h ≠ []) : resolveHistory d metric (some h) = h := by
  simp [resolveHistory, hne]

theorem resolveHistory_none_add (d : AnomalyDetector) (metric : String)
    (values : List ℚ) :
    resolveHistory (add_historical_data d metric values) metric none = values := by
  simp [resolveHistory, getHistorical, add_historical_data, List.lookup]

theorem add_historical_data_z_threshold (d : AnomalyDetector) (metric : String)
    (values : List ℚ) :
    (add_historical_data d metric values).z_threshold = d.z_threshold := rfl

theorem add_historical_data_iqr_multiplier (d : AnomalyDetector) (metric : String)
    (values : List ℚ) :
    (add_historical_data d metric values).iqr_multiplier = d.iqr_multiplier := rfl

theorem detect_zscore_anomaly_of_short (d : AnomalyDetector) (value : ℚ)
    (metric : String) (historical : Option (List ℚ)) (std : ℚ)
    (h : (resolveHistory d metric historical).length < 10) :
    detect_zscore_anomaly d value metric historical std = none := by
  unfold detect_zscore_anomaly
  simp [h]

theorem detect_iqr_anomaly_of_short (d : AnomalyDetector) (value : ℚ)
    (metric : String) (historical : Option (List ℚ))
    (h : (resolveHistory d metric historical).length < 10) :
    detect_iqr_anomaly d value metric historical = none := by
  unfold detect_iqr_anomaly
  simp [h]

theorem detect_zscore_anomaly_of_std_zero (d : AnomalyDetector) (value : ℚ)
    (metric : String) (historical : Option (List ℚ)) :
    detect_zscore_anomaly d value metric historical 0 = none := by
  unfold detect_zscore_anomaly
  by_cases h : (resolveHistory d metric historical).length < 10 <;> simp [h]

theorem detect_zscore_anomaly_of_variance_zero (d : AnomalyDetector) (value : ℚ)
    (metric : String) (historical : Option (List ℚ)) (std : ℚ)
    (hstd2 : std ^ 2 = popVariance (resolveHistory d metric historical))
    (hvar : popVariance (resolveHistory d metric historical) = 0) :
    detect_zscore_anomaly d value metric historical std = none := by
  have hstd : std = 0 := by
    have : std ^ 2 = 0 := hstd2.trans hvar
    exact pow_eq_zero_iff (two_ne_zero) |>.mp this
  subst hstd
  exact detect_zscore_anomaly_of_std_zero d value metric historical

theorem popVariance_replicate (n : ℕ) (c : ℚ) :
    popVariance (List.replicate n c) = 0 := by
  rcases Nat.eq_zero_or_pos n with hn | hn
  · subst hn
    simp [popVariance]
  · have hmean : listMean (List.replicate n c) = c := by
      have hn' : (n : ℚ) ≠ 0 := Nat.cast_ne_zero.mpr hn.ne'
      simp [listMean, List.sum_replicate, nsmul_eq_mul]
      field_simp
    simp [popVariance, hmean, List.map_replicate, List.sum_replicate]

theorem detect_zscore_anomaly_eq (d : AnomalyDetector) (value : ℚ) (metric : String)
    (historical : Option (List ℚ)) (std : ℚ)
    (hlen : 10 ≤ (resolveHistory d metric historical).length) (hstd0 : std ≠ 0) :
    detect_zscore_anomaly d value metric historical std =
      (if |value - listMean (resolveHistory d metric historical)| / std > d.z_threshold then
        some { anomaly_type := "Z-Score Outlier"
               severity := _calculate_severity
                 (|value - listMean (resolveHistory d metric historical)| / std)
               metric := metric
               actual_value := value
               expected_range := (listMean (resolveHistory d metric historical) - 2 * std,
                 listMean (resolveHistory d metric historical) + 2 * std)
               deviation_pct := (value - listMean (resolveHistory d metric historical)) /
                 listMean (resolveHistory d metric historical) * 100
               recommendation := _generate_recommendation metric
                 ((value - listMean (resolveHistory d metric historical)) /
                   listMean (resolveHistory d metric historical) * 100) }
      else none) := by
  unfold detect_zscore_anomaly
  simp [Nat.not_lt.mpr hlen, hstd0]

theorem detect_iqr_anomaly_eq (d : AnomalyDetector) (value : ℚ) (metric : String)
    (historical : Option (List ℚ))
    (hlen : 10 ≤ (resolveHistory d metric historical).length) :
    detect_iqr_anomaly d value metric historical =
      (if value < percentile (resolveHistory d metric historical) 25 -
            d.iqr_multiplier * (percentile (resolveHistory d metric historical) 75 -
              percentile (resolveHistory d metric historical) 25) ∨
          value > percentile (resolveHistory d metric historical) 75 +
            d.iqr_multiplier * (percentile (resolveHistory d metric historical) 75 -
              percentile (resolveHistory d metric historical) 25) then
        some { anomaly_type := "IQR Outlier"
               severity := _calculate_severity
                 (if percentile (resolveHistory d metric historical) 75 -
                      percentile (resolveHistory d metric historical) 25 > 0 then
                    min |value - (percentile (resolveHistory d metric historical) 25 -
                        d.iqr_multiplier * (percentile (resolveHistory d metric historical) 75 -
                          percentile (resolveHistory d metric historical) 25))|
                      |value - (percentile (resolveHistory d metric historical) 75 +
                        d.iqr_multiplier * (percentile (resolveHistory d metric historical) 75 -
                          percentile (resolveHistory d metric historical) 25))| /
                      (percentile (resolveHistory d metric historical) 75 -
                        percentile (resolveHistory d metric historical) 25)
                  else 0)
               metric := metric
               actual_value := value
               expected_range := (percentile (resolveHistory d metric historical) 25 -
                   d.iqr_multiplier * (percentile (resolveHistory d metric historical) 75 -
                     percentile (resolveHistory d metric historical) 25),
                 percentile (resolveHistory d metric historical) 75 +
                   d.iqr_multiplier * (percentile (resolveHistory d metric historical) 75 -
                     percentile (resolveHistory d metric historical) 25))
               deviation_pct := (value - listMedian (resolveHistory d metric historical)) /
                 listMedian (resolveHistory d metric historical) * 100
               recommendation := _generate_recommendation metric
                 ((value - listMedian (resolveHistory d metric historical)) /
                   listMedian (resolveHistory d metric historical) * 100) }
      else none) := by
  unfold detect_iqr_anomaly
  simp [Nat.not_lt.mpr hlen]

/-! ## Claim theorems -/

/-- Claim C1: for every metric, resolved series of at least 10 observations with
nonzero population standard deviation and nonzero mean, and probe value,
`detect_zscore_anomaly` reports iff `z = |value - mean| / std` strictly
exceeds the scaled z-threshold, and the report carries anomaly type
"Z-Score Outlier", the probe value, range `(mean - 2 std, mean + 2 std)`,
deviation `(value - mean) / mean * 100` and severity
`_calculate_severity z`. -/
theorem detect_zscore_spec (d : AnomalyDetector) (value : ℚ) (metric : String)
    (historical : Option (List ℚ)) (std : ℚ) (data : List ℚ)
    (hdata : data = resolveHistory d metric historical)
    (hlen : 10 ≤ data.length)
    (hstd : 0 ≤ std) (hstd2 : std ^ 2 = popVariance data) (hstd0 : std ≠ 0)
    (hmean : listMean data ≠ 0) :
    ((detect_zscore_anomaly d value metric historical std).isSome ↔
      |value - listMean data| / std > d.z_threshold) ∧
    ∀ r, detect_zscore_anomaly d value metric historical std = some r →
      r.anomaly_type = "Z-Score Outlier" ∧
      r.actual_value = value ∧
      r.expected_range = (listMean data - 2 * std, listMean data + 2 * std) ∧
      r.deviation_pct = (value - listMean data) / listMean data * 100 ∧
      r.severity = _calculate_severity (|value - listMean data| / std) := by
  subst hdata
  rw [detect_zscore_anomaly_eq d value metric historical std hlen hstd0]
  by_cases hz :
      |value - listMean (resolveHistory d metric historical)| / std > d.z_threshold
  · constructor
    · simp [hz]
    · intro r hr
      rw [if_pos hz] at hr
      cases hr
      exact ⟨rfl, rfl, rfl, rfl, rfl⟩
  · constructor
    · simp [hz]
    · intro r hr
      rw [if_neg hz] at hr
      cases hr

theorem detect_zscore_spec_witness :
    (detect_zscore_anomaly (mkAnomalyDetector 3 (3/2) "medium") 10 "daily_revenue"
        (some [0,0,0,0,0,2,2,2,2,2]) 1).isSome ↔
      |10 - listMean [0,0,0,0,0,2,2,2,2,2]| / 1 >
        (mkAnomalyDetector 3 (3/2) "medium").z_threshold :=
  (detect_zscore_spec (mkAnomalyDetector 3 (3/2) "medium") 10 "daily_revenue"
    (some [0,0,0,0,0,2,2,2,2,2]) 1 [0,0,0,0,0,2,2,2,2,2]
    (by simp [resolveHistory]) (by norm_num) (by norm_num)
    (by norm_num [popVariance, listMean]) (by norm_num)
    (by norm_num [listMean])).1

/-- Claim C2: for every metric, resolved series of at least 10 observations with
nonzero median, and probe value, with `Q1`/`Q3` the interpolated 25th/75th
percentiles, `IQR = Q3 - Q1` and bounds `Q1 - k IQR` / `Q3 + k IQR`,
`detect_iqr_anomaly` yields no verdict iff the value lies within the bounds
inclusive, and otherwise reports anomaly type "IQR Outlier", the bounds as
range, deviation `(value - median) / median * 100` and severity
`_calculate_severity (distance / IQR if IQR > 0 else 0)`. -/
theorem detect_iqr_spec (d : AnomalyDetector) (value : ℚ) (metric : String)
    (historical : Option (List ℚ)) (data : List ℚ)
    (hdata : data = resolveHistory d metric historical)
    (hlen : 10 ≤ data.length)
    (hmed : listMedian data ≠ 0) :
    (detect_iqr_anomaly d value metric historical = none ↔
      percentile data 25 - d.iqr_multiplier * (percentile data 75 - percentile data 25) ≤
          value ∧
        value ≤ percentile data 75 +
          d.iqr_multiplier * (percentile data 75 - percentile data 25)) ∧
    ∀ r, detect_iqr_anomaly d value metric historical = some r →
      r.anomaly_type = "IQR Outlier" ∧
      r.actual_value = value ∧
      r.expected_range = (percentile data 25 -
          d.iqr_multiplier * (percentile data 75 - percentile data 25),
        percentile data 75 +
          d.iqr_multiplier * (percentile data 75 - percentile data 25)) ∧
      r.deviation_pct = (value - listMedian data) / listMedian data * 100 ∧
      r.severity = _calculate_severity
        (if percentile data 75 - percentile data 25 > 0 then
          min |value - (percentile data 25 -
              d.iqr_multiplier * (percentile data 75 - percentile data 25))|
            |value - (percentile data 75 +
              d.iqr_multiplier * (percentile data 75 - percentile data 25))| /
            (percentile data 75 - percentile data 25)
        else 0) := by
  subst hdata
  rw [detect_iqr_anomaly_eq d value metric historical hlen]
  set L := percentile (resolveHistory d metric historical) 25 -
    d.iqr_multiplier * (percentile (resolveHistory d metric historical) 75 -
      percentile (resolveHistory d metric historical) 25) with hL
  set U := percentile (resolveHistory d metric historical) 75 +
    d.iqr_multiplier * (percentile (resolveHistory d metric historical) 75 -
      percentile (resolveHistory d metric historical) 25) with hU
  by_cases hv : value < L ∨ value > U
  · constructor
    · rw [if_pos hv]
      simp only [reduceCtorEq, false_iff]
      rcases hv with h | h
      · intro hc
        exact absurd hc.1 (not_le.mpr h)
      · intro hc
        exact absurd hc.2 (not_le.mpr h)
    · intro r hr
      rw [if_pos hv] at hr
      cases hr
      exact ⟨rfl, rfl, rfl, rfl, rfl⟩
  · constructor
    · rw [if_neg hv]
      push_neg at hv
      simp only [true_iff]
      exact ⟨hv.1, hv.2⟩
    · intro r hr
      rw [if_neg hv] at hr
      cases hr

theorem detect_iqr_spec_witness :
    detect_iqr_anomaly (mkAnomalyDetector 3 (3/2) "medium") 10 "daily_revenue"
        (some [0,0,0,0,0,2,2,2,2,2]) = none ↔
      percentile [0,0,0,0,0,2,2,2,2,2] 25 -
          (mkAnomalyDetector 3 (3/2) "medium").iqr_multiplier *
            (percentile [0,0,0,0,0,2,2,2,2,2] 75 - percentile [0,0,0,0,0,2,2,2,2,2] 25) ≤
          10 ∧
        10 ≤ percentile [0,0,0,0,0,2,2,2,2,2] 75 +
          (mkAnomalyDetector 3 (3/2) "medium").iqr_multiplier *
            (percentile [0,0,0,0,0,2,2,2,2,2] 75 - percentile [0,0,0,0,0,2,2,2,2,2] 25) :=
  (detect_iqr_spec (mkAnomalyDetector 3 (3/2) "medium") 10 "daily_revenue"
    (some [0,0,0,0,0,2,2,2,2,2]) [0,0,0,0,0,2,2,2,2,2]
    (by simp [resolveHistory]) (by norm_num)
    (by norm_num [listMedian, percentile, List.insertionSort, List.orderedInsert,
      List.getD_eq_getElem?_getD, Int.toNat])).1

/-- Claim C5: whenever the resolved historical series has fewer than 10
observations, both detection methods return no verdict (an absent result,
not an error), regardless of probe value and metric. -/
theorem detect_insufficient_data (d : AnomalyDetector) (value : ℚ) (metric : String)
    (historical : Option (List ℚ)) (std : ℚ)
    (h : (resolveHistory d metric historical).length < 10) :
    detect_zscore_anomaly d value metric historical std = none ∧
    detect_iqr_anomaly d value metric historical = none :=
  ⟨detect_zscore_anomaly_of_short d value metric historical std h,
   detect_iqr_anomaly_of_short d value metric historical h⟩

theorem detect_insufficient_data_witness :
    detect_zscore_anomaly (mkAnomalyDetector 3 (3/2) "medium") 100 "m"
        (some [1,2,3]) 1 = none ∧
    detect_iqr_anomaly (mkAnomalyDetector 3 (3/2) "medium") 100 "m"
        (some [1,2,3]) = none :=
  detect_insufficient_data (mkAnomalyDetector 3 (3/2) "medium") 100 "m"
    (some [1,2,3]) 1 (by simp [resolveHistory])

/-- Claim C6: on every resolved series of zero population variance — the
parameter `std`, pinned to the population standard deviation by
`std ^ 2 = popVariance data`, is then forced to zero — `detect_zscore_anomaly`
returns no verdict via the `std = 0` guard, which precedes the division
`|value - mean| / std`; in particular every constant series has zero
population variance (second conjunct). -/
theorem detect_zscore_degenerate (d : AnomalyDetector) (value : ℚ) (metric : String)
    (historical : Option (List ℚ)) (std : ℚ)
    (hstd2 : std ^ 2 = popVariance (resolveHistory d metric historical))
    (hvar : popVariance (resolveHistory d metric historical) = 0) :
    detect_zscore_anomaly d value metric historical std = none ∧
    ∀ (n : ℕ) (c : ℚ), popVariance (List.replicate n c) = 0 :=
  ⟨detect_zscore_anomaly_of_variance_zero d value metric historical std hstd2 hvar,
   popVariance_replicate⟩

theorem detect_zscore_degenerate_witness :
    detect_zscore_anomaly (mkAnomalyDetector 3 (3/2) "medium") 100 "m"
        (some (List.replicate 10 (5:ℚ))) 0 = none ∧
    ∀ (n : ℕ) (c : ℚ), popVariance (List.replicate n c) = 0 :=
  detect_zscore_degenerate (mkAnomalyDetector 3 (3/2) "medium") 100 "m"
    (some (List.replicate 10 (5:ℚ))) 0
    (by rw [resolveHistory_some_of_ne_nil _ _ _ (by simp), popVariance_replicate]
        norm_num)
    (by rw [resolveHistory_some_of_ne_nil _ _ _ (by simp), popVariance_replicate])

/-- Claim C8: `_calculate_severity` is monotonically non-decreasing in its score
under low < medium < high < critical, each tier is entered strictly above
its boundary (score > 5 critical, > 4 high, > 3 medium, else low), and the
boundary scores 3, 4, 5 themselves stay in the lower tier. -/
theorem severity_from_score_monotone (s t : ℚ) (hst : s ≤ t) :
    severityRank (_calculate_severity s) ≤ severityRank (_calculate_severity t) ∧
    (_calculate_severity s = "critical" ↔ 5 < s) ∧
    (_calculate_severity s = "high" ↔ 4 < s ∧ s ≤ 5) ∧
    (_calculate_severity s = "medium" ↔ 3 < s ∧ s ≤ 4) ∧
    (_calculate_severity s = "low" ↔ s ≤ 3) ∧
    _calculate_severity 3 = "low" ∧ _calculate_severity 4 = "medium" ∧
    _calculate_severity 5 = "high" := by
  have hrank : ∀ u : ℚ, severityRank (_calculate_severity u) =
      if u > 5 then 3 else if u > 4 then 2 else if u > 3 then 1 else 0 := by
    intro u
    unfold _calculate_severity
    split_ifs <;> rfl
  refine ⟨?_, ?_, ?_, ?_, ?_, ?_, ?_, ?_⟩
  · rw [hrank, hrank]
    split_ifs <;> norm_num <;> linarith
  · unfold _calculate_severity
    split_ifs with h1 h2 h3
    · simpa using h1
    · exact ⟨fun h => absurd h (by decide), fun h => absurd h h1⟩
    · exact ⟨fun h => absurd h (by decide), fun h => absurd h h1⟩
    · exact ⟨fun h => absurd h (by decide), fun h => absurd h h1⟩
  · unfold _calculate_severity
    split_ifs with h1 h2 h3
    · exact ⟨fun h => absurd h (by decide), fun h => absurd h.2 (not_le.mpr h1)⟩
    · exact ⟨fun _ => ⟨h2, not_lt.mp h1⟩, fun _ => rfl⟩
    · exact ⟨fun h => absurd h (by decide), fun h => absurd h.1 (not_lt.mpr (le_of_not_lt h2))⟩
    · exact ⟨fun h => absurd h (by decide), fun h => absurd h.1 h2⟩
  · unfold _calculate_severity
    split_ifs with h1 h2 h3
    · exact ⟨fun h => absurd h (by decide),
        fun h => absurd h.2 (not_le.mpr (by linarith))⟩
    · exact ⟨fun h => absurd h (by decide), fun h => absurd h.2 (not_le.mpr h2)⟩
    · exact ⟨fun _ => ⟨h3, not_lt.mp h2⟩, fun _ => rfl⟩
    · exact ⟨fun h => absurd h (by decide), fun h => absurd h.1 h3⟩
  · unfold _calculate_severity
    split_ifs with h1 h2 h3
    · exact ⟨fun h => absurd h (by decide), fun h => absurd h (not_le.mpr (by linarith))⟩
    · exact ⟨fun h => absurd h (by decide), fun h => absurd h (not_le.mpr (by linarith))⟩
    · exact ⟨fun h => absurd h (by decide), fun h => absurd h (not_le.mpr (by linarith))⟩
    · exact ⟨fun _ => not_lt.mp h3, fun _ => rfl⟩
  · unfold _calculate_severity
    rw [if_neg (by norm_num), if_neg (by norm_num), if_neg (by norm_num)]
  · unfold _calculate_severity
    rw [if_neg (by norm_num), if_neg (by norm_num), if_pos (by norm_num)]
  · unfold _calculate_severity
    rw [if_neg (by norm_num), if_pos (by norm_num)]

theorem severity_from_score_monotone_witness :
    severityRank (_calculate_severity 1) ≤ severityRank (_calculate_severity 6) ∧
    (_calculate_severity 1 = "critical" ↔ 5 < (1:ℚ)) ∧
    (_calculate_severity 1 = "high" ↔ 4 < (1:ℚ) ∧ (1:ℚ) ≤ 5) ∧
    (_calculate_severity 1 = "medium" ↔ 3 < (1:ℚ) ∧ (1:ℚ) ≤ 4) ∧
    (_calculate_severity 1 = "low" ↔ (1:ℚ) ≤ 3) ∧
    _calculate_severity 3 = "low" ∧ _calculate_severity 4 = "medium" ∧
    _calculate_severity 5 = "high" :=
  severity_from_score_monotone 1 6 (by norm_num)

/-- Claim C9: construction scales both base thresholds by the sensitivity
multiplier (low 0.7, medium 1.0, high 1.3, anything else 1.0 — the
fallback), exactly once; registering history later leaves both thresholds
unchanged. -/
theorem init_sensitivity_scaling (z k : ℚ) (s : String) :
    (mkAnomalyDetector z k s).z_threshold = z * sensitivityMultiplier s ∧
    (mkAnomalyDetector z k s).iqr_multiplier = k * sensitivityMultiplier s ∧
    sensitivityMultiplier "low" = 7/10 ∧
    sensitivityMultiplier "medium" = 1 ∧
    sensitivityMultiplier "high" = 13/10 ∧
    (s ≠ "low" → s ≠ "medium" → s ≠ "high" → sensitivityMultiplier s = 1) ∧
    ∀ (metric : String) (values : List ℚ),
      (add_historical_data (mkAnomalyDetector z k s) metric values).z_threshold =
        z * sensitivityMultiplier s ∧
      (add_historical_data (mkAnomalyDetector z k s) metric values).iqr_multiplier =
        k * sensitivityMultiplier s := by
  refine ⟨rfl, rfl,
    by unfold sensitivityMultiplier; rw [if_pos rfl],
    by unfold sensitivityMultiplier; rw [if_neg (by decide), if_pos rfl],
    by unfold sensitivityMultiplier; rw [if_neg (by decide), if_neg (by decide), if_pos rfl],
    ?_, fun _ _ => ⟨rfl, rfl⟩⟩
  intro h1 h2 h3
  unfold sensitivityMultiplier
  rw [if_neg h1, if_neg h2, if_neg h3]

theorem init_sensitivity_scaling_witness :
    (mkAnomalyDetector 3 (3/2) "banana").z_threshold =
      3 * sensitivityMultiplier "banana" ∧
    sensitivityMultiplier "banana" = 1 :=
  ⟨(init_sensitivity_scaling 3 (3/2) "banana").1,
   (init_sensitivity_scaling 3 (3/2) "banana").2.2.2.2.2.1
     (by decide) (by decide) (by decide)⟩

/-- Claim C3: `detect_all` runs one pass over the input in order, contributing
per metric the z-score report if there is one (skipping the IQR check),
else the IQR report if there is one, else nothing; so it emits at most one
report per input metric, never both a z-score and an IQR report for the
same metric, and no more reports than input metrics. -/
theorem detect_all_spec (d : AnomalyDetector) (stdOf : String → ℚ)
    (current_values : List (String × ℚ)) :
    detect_all d stdOf current_values =
      current_values.flatMap (reportsForMetric d stdOf) ∧
    (∀ p : String × ℚ, (reportsForMetric d stdOf p).length ≤ 1) ∧
    (∀ metric value z_report,
      detect_zscore_anomaly d value metric none (stdOf metric) = some z_report →
      reportsForMetric d stdOf (metric, value) = [z_report]) ∧
    (∀ metric value,
      detect_zscore_anomaly d value metric none (stdOf metric) = none →
      reportsForMetric d stdOf (metric, value) =
        (detect_iqr_anomaly d value metric none).toList) ∧
    (detect_all d stdOf current_values).length ≤ current_values.length := by
  have hflat : detect_all d stdOf current_values =
      current_values.flatMap (reportsForMetric d stdOf) := by
    induction current_values with
    | nil => rfl
    | cons p rest ih =>
      obtain ⟨metric, value⟩ := p
      cases hz : detect_zscore_anomaly d value metric none (stdOf metric) with
      | some z_report => simp [detect_all, reportsForMetric, hz, ih]
      | none =>
        cases hi : detect_iqr_anomaly d value metric none <;>
          simp [detect_all, reportsForMetric, hz, hi, ih]
  have hone : ∀ p : String × ℚ, (reportsForMetric d stdOf p).length ≤ 1 := by
    intro p
    unfold reportsForMetric
    cases detect_zscore_anomaly d p.2 p.1 none (stdOf p.1) with
    | some z_report => simp
    | none => cases detect_iqr_anomaly d p.2 p.1 none <;> simp
  have hlen : ∀ l : List (String × ℚ),
      (l.flatMap (reportsForMetric d stdOf)).length ≤ l.length := by
    intro l
    induction l with
    | nil => simp
    | cons p rest ih =>
      rw [List.flatMap_cons, List.length_append, List.length_cons]
      have := hone p
      omega
  refine ⟨hflat, hone, ?_, ?_, by rw [hflat]; exact hlen current_values⟩
  · intro metric value z_report hz
    unfold reportsForMetric
    rw [hz]
  · intro metric value hz
    unfold reportsForMetric
    rw [hz]

theorem detect_all_spec_witness :
    detect_all (mkAnomalyDetector 3 (3/2) "medium") (fun _ => 1) [("m", 5)] =
      [("m", (5:ℚ))].flatMap
        (reportsForMetric (mkAnomalyDetector 3 (3/2) "medium") (fun _ => 1)) ∧
    reportsForMetric (mkAnomalyDetector 3 (3/2) "medium") (fun _ => 1) ("m", 5) =
      (detect_iqr_anomaly (mkAnomalyDetector 3 (3/2) "medium") 5 "m" none).toList :=
  ⟨(detect_all_spec (mkAnomalyDetector 3 (3/2) "medium") (fun _ => 1) [("m", 5)]).1,
   (detect_all_spec (mkAnomalyDetector 3 (3/2) "medium") (fun _ => 1) [("m", 5)]).2.2.2.1
     "m" 5 (detect_zscore_anomaly_of_short _ _ _ _ _
       (by simp [resolveHistory, getHistorical, mkAnomalyDetector]))⟩

/-- Claim C4 counterexample: with the series `[0, ..., 9]` registered for "m",
a call that explicitly supplies the empty history is resolved to the
registered series — Python's `or` treats the empty list as falsy — so the
IQR check reports on the registered data instead of returning the
no-verdict that an empty resolved series would force. -/
theorem history_override_counterexample :
    resolveHistory (add_historical_data (mkAnomalyDetector 3 (3/2) "medium") "m"
        [0,1,2,3,4,5,6,7,8,9]) "m" (some []) = [0,1,2,3,4,5,6,7,8,9] ∧
    detect_iqr_anomaly (add_historical_data (mkAnomalyDetector 3 (3/2) "medium") "m"
        [0,1,2,3,4,5,6,7,8,9]) 100 "m" (some []) ≠ none := by
  have hres : resolveHistory (add_historical_data (mkAnomalyDetector 3 (3/2) "medium") "m"
      [0,1,2,3,4,5,6,7,8,9]) "m" (some []) = [0,1,2,3,4,5,6,7,8,9] := by
    simp [resolveHistory, getHistorical, add_historical_data, List.lookup]
  refine ⟨hres, ?_⟩
  rw [detect_iqr_anomaly_eq _ _ _ _ (by rw [hres]; norm_num)]
  rw [if_pos]
  · simp
  · rw [hres]
    right
    have h25 : percentile [0,1,2,3,4,5,6,7,8,9] 25 = 9/4 := by
      norm_num [percentile, List.insertionSort, List.orderedInsert,
        List.getD_eq_getElem?_getD, Int.toNat]
    have h75 : percentile [0,1,2,3,4,5,6,7,8,9] 75 = 27/4 := by
      norm_num [percentile, List.insertionSort, List.orderedInsert,
        List.getD_eq_getElem?_getD, Int.toNat]
    rw [h25, h75, add_historical_data_iqr_multiplier]
    show (100:ℚ) > 27/4 + (mkAnomalyDetector 3 (3/2) "medium").iqr_multiplier * (27/4 - 9/4)
    have hm : (mkAnomalyDetector 3 (3/2) "medium").iqr_multiplier = 3/2 := by
      show 3/2 * sensitivityMultiplier "medium" = 3/2
      unfold sensitivityMultiplier
      rw [if_neg (by decide), if_pos rfl]
      norm_num
    rw [hm]
    norm_num

/-- Claim C4 (amended): a non-empty explicitly supplied history is used in
preference to the registered series, and both detection methods give the
same result as on a detector without the registration; an explicitly
supplied empty history (like an absent one) falls back to the registered
series; a call without explicit history immediately after
`add_historical_data` uses the just-registered series. -/
theorem history_override_amended (d : AnomalyDetector) (metric : String)
    (h values : List ℚ) (value std : ℚ) (hne : h ≠ []) :
    resolveHistory d metric (some h) = h ∧
    resolveHistory (add_historical_data d metric values) metric none = values ∧
    detect_zscore_anomaly (add_historical_data d metric values) value metric
        (some h) std =
      detect_zscore_anomaly d value metric (some h) std ∧
    detect_iqr_anomaly (add_historical_data d metric values) value metric (some h) =
      detect_iqr_anomaly d value metric (some h) := by
  have hres1 : resolveHistory d metric (some h) = h :=
    resolveHistory_some_of_ne_nil d metric h hne
  have hres2 : resolveHistory (add_historical_data d metric values) metric (some h) = h :=
    resolveHistory_some_of_ne_nil _ metric h hne
  refine ⟨hres1, resolveHistory_none_add d metric values, ?_, ?_⟩
  · unfold detect_zscore_anomaly
    rw [hres1, hres2, add_historical_data_z_threshold]
  · unfold detect_iqr_anomaly
    rw [hres1, hres2, add_historical_data_iqr_multiplier]

theorem history_override_amended_witness :
    resolveHistory (mkAnomalyDetector 3 (3/2) "medium") "m" (some [1,2,3]) = [1,2,3] ∧
    resolveHistory (add_historical_data (mkAnomalyDetector 3 (3/2) "medium") "m"
        [4,5,6]) "m" none = [4,5,6] ∧
    detect_zscore_anomaly (add_historical_data (mkAnomalyDetector 3 (3/2) "medium") "m"
        [4,5,6]) 0 "m" (some [1,2,3]) 1 =
      detect_zscore_anomaly (mkAnomalyDetector 3 (3/2) "medium") 0 "m" (some [1,2,3]) 1 ∧
    detect_iqr_anomaly (add_historical_data (mkAnomalyDetector 3 (3/2) "medium") "m"
        [4,5,6]) 0 "m" (some [1,2,3]) =
      detect_iqr_anomaly (mkAnomalyDetector 3 (3/2) "medium") 0 "m" (some [1,2,3]) :=
  history_override_amended (mkAnomalyDetector 3 (3/2) "medium") "m" [1,2,3] [4,5,6] 0 1
    (by simp)

theorem insertionSort_replicate (n : ℕ) (c : ℚ) :
    List.insertionSort (· ≤ ·) (List.replicate n c) = List.replicate n c := by
  have hperm := List.perm_insertionSort (fun a b : ℚ => a ≤ b) (List.replicate n c)
  refine List.eq_replicate_iff.mpr ⟨?_, ?_⟩
  · rw [List.length_insertionSort, List.length_replicate]
  · intro b hb
    exact List.eq_of_mem_replicate (hperm.mem_iff.mp hb)

theorem getD_replicate_of_lt {n i : ℕ} (c dflt : ℚ) (hi : i < n) :
    (List.replicate n c).getD i dflt = c := by
  rw [List.getD_eq_getElem?_getD, List.getElem?_replicate, if_pos hi]
  rfl

theorem percentile_replicate (n : ℕ) (c q : ℚ) (hn : 1 ≤ n) (hq0 : 0 ≤ q)
    (hq1 : q ≤ 100) : percentile (List.replicate n c) q = c := by
  unfold percentile
  rw [insertionSort_replicate, List.length_replicate]
  dsimp only
  have hn1 : (0:ℚ) ≤ (n : ℚ) - 1 := by
    have : (1:ℚ) ≤ (n : ℚ) := by exact_mod_cast hn
    linarith
  have hq100 : q / 100 ≤ 1 := by
    rw [div_le_one (by norm_num)]
    exact hq1
  have hposle : q / 100 * ((n : ℚ) - 1) ≤ (n : ℚ) - 1 :=
    mul_le_of_le_one_left hn1 hq100
  have hfloorle : ⌊q / 100 * ((n : ℚ) - 1)⌋ ≤ (n : ℤ) - 1 := by
    calc ⌊q / 100 * ((n : ℚ) - 1)⌋ ≤ ⌊(n : ℚ) - 1⌋ := Int.floor_mono hposle
    _ = (n : ℤ) - 1 := by
        rw [show ((n : ℚ) - 1) = (((n : ℤ) - 1 : ℤ) : ℚ) by push_cast; ring]
        exact Int.floor_intCast _
  have hi : (⌊q / 100 * ((n : ℚ) - 1)⌋).toNat < n := by
    have h1 : (⌊q / 100 * ((n : ℚ) - 1)⌋).toNat ≤ n - 1 := by
      rw [Int.toNat_le]
      calc ⌊q / 100 * ((n : ℚ) - 1)⌋ ≤ (n : ℤ) - 1 := hfloorle
      _ = ((n - 1 : ℕ) : ℤ) := by omega
    omega
  rw [getD_replicate_of_lt c 0 hi]
  by_cases hi1 : (⌊q / 100 * ((n : ℚ) - 1)⌋).toNat + 1 < n
  · rw [getD_replicate_of_lt c c hi1]
    ring
  · rw [List.getD_eq_default _ _ (by rw [List.length_replicate]; omega)]
    ring

/-- Claim C10 (implicit): on a constant series of at least 10 copies of a
nonzero value `c`, every probe value different from `c` makes
`detect_iqr_anomaly` report: Q1 = Q3 = c collapses the bounds to `(c, c)`,
the `IQR > 0` guard selects score 0 so severity is "low" — while
`detect_zscore_anomaly` on the same degenerate series yields no verdict. -/
theorem detect_iqr_constant_series (d : AnomalyDetector) (value c : ℚ)
    (metric : String) (n : ℕ) (std : ℚ) (hn : 10 ≤ n) (hc : c ≠ 0)
    (hvc : value ≠ c) (hstd : 0 ≤ std)
    (hstd2 : std ^ 2 = popVariance (List.replicate n c)) :
    (∃ r, detect_iqr_anomaly d value metric (some (List.replicate n c)) = some r ∧
      r.severity = "low" ∧ r.expected_range = (c, c) ∧ r.actual_value = value ∧
      r.anomaly_type = "IQR Outlier") ∧
    detect_zscore_anomaly d value metric (some (List.replicate n c)) std = none := by
  have hne : List.replicate n c ≠ [] := by
    simp only [ne_eq, List.replicate_eq_nil_iff]
    omega
  have hres : resolveHistory d metric (some (List.replicate n c)) =
      List.replicate n c := resolveHistory_some_of_ne_nil d metric _ hne
  have hlen : 10 ≤ (resolveHistory d metric (some (List.replicate n c))).length := by
    rw [hres, List.length_replicate]
    exact hn
  have h25 : percentile (List.replicate n c) 25 = c :=
    percentile_replicate n c 25 (by omega) (by norm_num) (by norm_num)
  have h75 : percentile (List.replicate n c) 75 = c :=
    percentile_replicate n c 75 (by omega) (by norm_num) (by norm_num)
  constructor
  · rw [detect_iqr_anomaly_eq d value metric (some (List.replicate n c)) hlen]
    rw [hres, h25, h75]
    rw [if_pos (by rcases lt_or_gt_of_ne hvc with h | h
                   · left; linarith
                   · right; linarith)]
    refine ⟨_, rfl, ?_, ?_, rfl, rfl⟩
    · have hguard : ¬ (c - c > 0) := by linarith
      rw [if_neg hguard]
      unfold _calculate_severity
      rw [if_neg (by norm_num), if_neg (by norm_num), if_neg (by norm_num)]
    · show (c - d.iqr_multiplier * (c - c), c + d.iqr_multiplier * (c - c)) = (c, c)
      rw [sub_self, mul_zero, sub_zero, add_zero]
  · exact detect_zscore_anomaly_of_variance_zero d value metric
      (some (List.replicate n c)) std (by rw [hres]; exact hstd2)
      (by rw [hres]; exact popVariance_replicate n c)

theorem detect_iqr_constant_series_witness :
    (∃ r, detect_iqr_anomaly (mkAnomalyDetector 3 (3/2) "medium") 7 "m"
        (some (List.replicate 10 (5:ℚ))) = some r ∧
      r.severity = "low" ∧ r.expected_range = (5, 5) ∧ r.actual_value = 7 ∧
      r.anomaly_type = "IQR Outlier") ∧
    detect_zscore_anomaly (mkAnomalyDetector 3 (3/2) "medium") 7 "m"
        (some (List.replicate 10 (5:ℚ))) 0 = none :=
  detect_iqr_constant_series (mkAnomalyDetector 3 (3/2) "medium") 7 5 "m" 10 0
    (by norm_num) (by norm_num) (by norm_num) (by norm_num)
    (by rw [popVariance_replicate]; norm_num)

theorem getD_eq_get_of_lt (s : List ℚ) (dflt : ℚ) {i : ℕ} (hi : i < s.length) :
    s.getD i dflt = s.get ⟨i, hi⟩ := by
  rw [List.getD_eq_getElem?_getD, List.getElem?_eq_getElem hi]
  rfl

theorem sorted_get_le {s : List ℚ} (hs : List.Sorted (· ≤ ·) s) {i j : ℕ}
    (hij : i ≤ j) (hi : i < s.length) (hj : j < s.length) :
    s.get ⟨i, hi⟩ ≤ s.get ⟨j, hj⟩ := by
  rcases Nat.eq_or_lt_of_le hij with heq | hlt
  · subst heq
    exact le_refl _
  · exact hs.rel_get_of_lt (Fin.mk_lt_mk.mpr hlt)

theorem percentile_mono (data : List ℚ) (q1 q2 : ℚ) (hq0 : 0 ≤ q1) (h12 : q1 ≤ q2)
    (h100 : q2 ≤ 100) (hn : 1 ≤ data.length) :
    percentile data q1 ≤ percentile data q2 := by
  unfold percentile
  dsimp only
  set s := List.insertionSort (· ≤ ·) data with hsdef
  have hs : List.Sorted (· ≤ ·) s := List.sorted_insertionSort _ data
  have hslen : s.length = data.length := List.length_insertionSort _ data
  set p1 : ℚ := q1 / 100 * ((data.length : ℚ) - 1) with hp1def
  set p2 : ℚ := q2 / 100 * ((data.length : ℚ) - 1) with hp2def
  have hn1 : (0:ℚ) ≤ (data.length : ℚ) - 1 := by
    have : (1:ℚ) ≤ (data.length : ℚ) := by exact_mod_cast hn
    linarith
  have hp1nonneg : 0 ≤ p1 := mul_nonneg (div_nonneg hq0 (by norm_num)) hn1
  have hp12 : p1 ≤ p2 := mul_le_mul_of_nonneg_right (by linarith) hn1
  have hp2le : p2 ≤ (data.length : ℚ) - 1 := by
    apply mul_le_of_le_one_left hn1
    rw [div_le_one (by norm_num)]
    exact h100
  have hf1 : (0:ℤ) ≤ ⌊p1⌋ := Int.floor_nonneg.mpr hp1nonneg
  have hf2 : (0:ℤ) ≤ ⌊p2⌋ := le_trans hf1 (Int.floor_mono hp12)
  set i1 : ℕ := (⌊p1⌋).toNat with hi1def
  set i2 : ℕ := (⌊p2⌋).toNat with hi2def
  have hcast1 : ((i1 : ℕ) : ℚ) = ((⌊p1⌋ : ℤ) : ℚ) := by
    rw [hi1def]
    exact_mod_cast congrArg (fun z : ℤ => (z : ℚ)) (Int.toNat_of_nonneg hf1)
  have hcast2 : ((i2 : ℕ) : ℚ) = ((⌊p2⌋ : ℤ) : ℚ) := by
    rw [hi2def]
    exact_mod_cast congrArg (fun z : ℤ => (z : ℚ)) (Int.toNat_of_nonneg hf2)
  have hle1 : (i1 : ℚ) ≤ p1 := by rw [hcast1]; exact Int.floor_le p1
  have hle2 : (i2 : ℚ) ≤ p2 := by rw [hcast2]; exact Int.floor_le p2
  have hlt1 : p1 < (i1 : ℚ) + 1 := by
    rw [hcast1]
    exact_mod_cast Int.lt_floor_add_one p1
  have hi1i2 : i1 ≤ i2 := by
    rw [hi1def, hi2def]
    exact Int.toNat_le_toNat (Int.floor_mono hp12)
  have hi2n : i2 < data.length := by
    have hfl : ⌊p2⌋ ≤ (data.length : ℤ) - 1 := by
      calc ⌊p2⌋ ≤ ⌊(data.length : ℚ) - 1⌋ := Int.floor_mono hp2le
      _ = (data.length : ℤ) - 1 := by
          rw [show ((data.length : ℚ) - 1) = (((data.length : ℤ) - 1 : ℤ) : ℚ) by
            push_cast; ring]
          exact Int.floor_intCast _
    have h1 : i2 ≤ data.length - 1 := by
      rw [hi2def, Int.toNat_le]
      calc ⌊p2⌋ ≤ (data.length : ℤ) - 1 := hfl
      _ = ((data.length - 1 : ℕ) : ℤ) := by omega
    omega
  have hi2s : i2 < s.length := by rw [hslen]; exact hi2n
  have hi1s : i1 < s.length := lt_of_le_of_lt hi1i2 hi2s
  rw [getD_eq_get_of_lt s 0 hi1s, getD_eq_get_of_lt s 0 hi2s]
  set a1 := s.get ⟨i1, hi1s⟩ with ha1def
  set a2 := s.get ⟨i2, hi2s⟩ with ha2def
  have hab1 : a1 ≤ s.getD (i1 + 1) a1 := by
    by_cases hi11 : i1 + 1 < s.length
    · rw [getD_eq_get_of_lt s a1 hi11]
      exact sorted_get_le hs (Nat.le_succ i1) hi1s hi11
    · rw [List.getD_eq_default _ _ (Nat.le_of_not_lt hi11)]
  have hab2 : a2 ≤ s.getD (i2 + 1) a2 := by
    by_cases hi21 : i2 + 1 < s.length
    · rw [getD_eq_get_of_lt s a2 hi21]
      exact sorted_get_le hs (Nat.le_succ i2) hi2s hi21
    · rw [List.getD_eq_default _ _ (Nat.le_of_not_lt hi21)]
  rcases Nat.eq_or_lt_of_le hi1i2 with heq | hlt12
  · have hi12q : ((i1 : ℕ) : ℚ) = ((i2 : ℕ) : ℚ) := by exact_mod_cast heq
    have ha12 : a1 = a2 := by
      rw [ha1def, ha2def]
      congr 1
      exact Fin.ext heq
    have hsucc : i1 + 1 = i2 + 1 := by omega
    have hb12 : s.getD (i1 + 1) a1 = s.getD (i2 + 1) a2 := by
      rw [ha12, hsucc]
    rw [hb12, ha12, hi12q]
    have hmul := mul_le_mul_of_nonneg_right
      (show p1 - (i2 : ℚ) ≤ p2 - (i2 : ℚ) by linarith)
      (sub_nonneg.mpr hab2)
    linarith
  · have hb1a2 : s.getD (i1 + 1) a1 ≤ a2 := by
      have hi11 : i1 + 1 < s.length := lt_of_le_of_lt hlt12 hi2s
      rw [getD_eq_get_of_lt s a1 hi11]
      exact sorted_get_le hs hlt12 hi11 hi2s
    have h1 : (p1 - (i1 : ℚ)) * (s.getD (i1 + 1) a1 - a1) ≤
        1 * (s.getD (i1 + 1) a1 - a1) :=
      mul_le_mul_of_nonneg_right (by linarith) (sub_nonneg.mpr hab1)
    have h2 : 0 ≤ (p2 - (i2 : ℚ)) * (s.getD (i2 + 1) a2 - a2) :=
      mul_nonneg (by linarith) (sub_nonneg.mpr hab2)
    linarith

theorem detect_zscore_range_of_some (d : AnomalyDetector) (value : ℚ)
    (metric : String) (historical : Option (List ℚ)) (std : ℚ) (hstd : 0 ≤ std)
    (r : AnomalyReport)
    (hr : detect_zscore_anomaly d value metric historical std = some r) :
    r.expected_range.1 ≤ r.expected_range.2 := by
  unfold detect_zscore_anomaly at hr
  dsimp only at hr
  split_ifs at hr with h1 h2 h3
  cases hr
  show listMean (resolveHistory d metric historical) - 2 * std ≤
    listMean (resolveHistory d metric historical) + 2 * std
  linarith

theorem detect_iqr_range_of_some (d : AnomalyDetector) (value : ℚ)
    (metric : String) (historical : Option (List ℚ))
    (hk : 0 ≤ d.iqr_multiplier) (r : AnomalyReport)
    (hr : detect_iqr_anomaly d value metric historical = some r) :
    r.expected_range.1 ≤ r.expected_range.2 := by
  unfold detect_iqr_anomaly at hr
  dsimp only at hr
  split_ifs at hr with h1 h2 h3 <;>
    (cases hr
     show percentile (resolveHistory d metric historical) 25 -
         d.iqr_multiplier * (percentile (resolveHistory d metric historical) 75 -
           percentile (resolveHistory d metric historical) 25) ≤
       percentile (resolveHistory d metric historical) 75 +
         d.iqr_multiplier * (percentile (resolveHistory d metric historical) 75 -
           percentile (resolveHistory d metric historical) 25)
     have hq : percentile (resolveHistory d metric historical) 25 ≤
         percentile (resolveHistory d metric historical) 75 :=
       percentile_mono _ 25 75 (by norm_num) (by norm_num) (by norm_num) (by omega)
     nlinarith [mul_nonneg hk (sub_nonneg.mpr hq)])

theorem detect_all_range_of_mem (d : AnomalyDetector) (stdOf : String → ℚ)
    (hk : 0 ≤ d.iqr_multiplier) (hstdOf : ∀ m, 0 ≤ stdOf m)
    (current_values : List (String × ℚ)) (r : AnomalyReport)
    (hr : r ∈ detect_all d stdOf current_values) :
    r.expected_range.1 ≤ r.expected_range.2 := by
  induction current_values with
  | nil => cases hr
  | cons p rest ih =>
    obtain ⟨metric, value⟩ := p
    cases hz : detect_zscore_anomaly d value metric none (stdOf metric) with
    | some z_report =>
      rw [show detect_all d stdOf ((metric, value) :: rest) =
          z_report :: detect_all d stdOf rest by rw [detect_all, hz]] at hr
      rcases List.mem_cons.mp hr with rfl | hmem
      · exact detect_zscore_range_of_some d value metric none (stdOf metric)
          (hstdOf metric) r hz
      · exact ih hmem
    | none =>
      cases hi : detect_iqr_anomaly d value metric none with
      | some iqr_report =>
        rw [show detect_all d stdOf ((metric, value) :: rest) =
            iqr_report :: detect_all d stdOf rest by rw [detect_all, hz, hi]] at hr
        rcases List.mem_cons.mp hr with rfl | hmem
        · exact detect_iqr_range_of_some d value metric none hk r hi
        · exact ih hmem
      | none =>
        rw [show detect_all d stdOf ((metric, value) :: rest) =
            detect_all d stdOf rest by rw [detect_all, hz, hi]] at hr
        exact ih hr

/-- Claim C7 counterexample: the constructor accepts a negative base IQR
multiplier, and then an out-of-bounds probe yields a report whose
expected range is inverted (upper < lower), refuting
"expected_range.lower ≤ expected_range.upper always". -/
theorem expected_range_counterexample :
    ∃ r, detect_iqr_anomaly (mkAnomalyDetector 3 (-2) "medium") 20 "m"
        (some [0,1,2,3,4,5,6,7,8,9]) = some r ∧
      r.expected_range.2 < r.expected_range.1 := by
  have hres : resolveHistory (mkAnomalyDetector 3 (-2) "medium") "m"
      (some [0,1,2,3,4,5,6,7,8,9]) = [0,1,2,3,4,5,6,7,8,9] := by
    simp [resolveHistory]
  have hm : (mkAnomalyDetector 3 (-2) "medium").iqr_multiplier = -2 := by
    show -2 * sensitivityMultiplier "medium" = -2
    unfold sensitivityMultiplier
    rw [if_neg (by decide), if_pos rfl]
    norm_num
  have h25 : percentile [0,1,2,3,4,5,6,7,8,9] 25 = 9/4 := by
    norm_num [percentile, List.insertionSort, List.orderedInsert,
      List.getD_eq_getElem?_getD, Int.toNat]
  have h75 : percentile [0,1,2,3,4,5,6,7,8,9] 75 = 27/4 := by
    norm_num [percentile, List.insertionSort, List.orderedInsert,
      List.getD_eq_getElem?_getD, Int.toNat]
  rw [detect_iqr_anomaly_eq _ _ _ _ (by rw [hres]; norm_num)]
  rw [hres, h25, h75, hm]
  rw [if_pos (by right; norm_num)]
  exact ⟨_, rfl, by norm_num⟩

/-- Claim C7 (amended): every report returned by `detect_zscore_anomaly` (with
the standard-deviation parameter nonnegative, as the true standard
deviation is), by `detect_iqr_anomaly`, or by `detect_all` satisfies
`expected_range.1 ≤ expected_range.2`, provided the detector's scaled IQR
multiplier is nonnegative — which holds for every nonnegative base
multiplier under all three documented sensitivities and the fallback. -/
theorem expected_range_ordered (d : AnomalyDetector) (value : ℚ) (metric : String)
    (historical : Option (List ℚ)) (std : ℚ) (stdOf : String → ℚ)
    (current_values : List (String × ℚ))
    (hstd : 0 ≤ std) (hk : 0 ≤ d.iqr_multiplier) (hstdOf : ∀ m, 0 ≤ stdOf m) :
    (∀ r, detect_zscore_anomaly d value metric historical std = some r →
      r.expected_range.1 ≤ r.expected_range.2) ∧
    (∀ r, detect_iqr_anomaly d value metric historical = some r →
      r.expected_range.1 ≤ r.expected_range.2) ∧
    (∀ r ∈ detect_all d stdOf current_values,
      r.expected_range.1 ≤ r.expected_range.2) :=
  ⟨fun r hr => detect_zscore_range_of_some d value metric historical std hstd r hr,
   fun r hr => detect_iqr_range_of_some d value metric historical hk r hr,
   fun r hr => detect_all_range_of_mem d stdOf hk hstdOf current_values r hr⟩

theorem expected_range_ordered_witness :
    (∀ r, detect_zscore_anomaly (mkAnomalyDetector 3 (3/2) "medium") 10
        "daily_revenue" (some [0,0,0,0,0,2,2,2,2,2]) 1 = some r →
      r.expected_range.1 ≤ r.expected_range.2) ∧
    (∀ r, detect_iqr_anomaly (mkAnomalyDetector 3 (3/2) "medium") 10
        "daily_revenue" (some [0,0,0,0,0,2,2,2,2,2]) = some r →
      r.expected_range.1 ≤ r.expected_range.2) ∧
    (∀ r ∈ detect_all (mkAnomalyDetector 3 (3/2) "medium") (fun _ => 1)
        [("daily_revenue", (10:ℚ))],
      r.expected_range.1 ≤ r.expected_range.2) :=
  expected_range_ordered (mkAnomalyDetector 3 (3/2) "medium") 10 "daily_revenue"
    (some [0,0,0,0,0,2,2,2,2,2]) 1 (fun _ => 1) [("daily_revenue", (10:ℚ))]
    (by norm_num)
    (by show (0:ℚ) ≤ 3/2 * sensitivityMultiplier "medium"
        unfold sensitivityMultiplier
        rw [if_neg (by decide), if_pos rfl]
        norm_num)
    (fun _ => by norm_num)

end SmartSales
